import Mathlib

/-!
Verification of the GES Annex quiz feature (the `Quizzes` React component and its
inner `QuizCreationForm` and `QuizResultsTable` components).

The React component state is embedded as an explicit record `QuizzesState`; each
event handler of the source becomes a function from state to state, where a
`setX(v)` call is an update of field `x` and a functional update `setX(f)`
applies `f` to the current value of `x`.  The two Firestore collections touched
by this feature are embedded as explicit lists inside the state:
`userQuizResults` models `artifacts/{appId}/users/{userId}/quizResults` (the
collection `handleSubmitQuiz` appends to) and `publicQuizSubmissions` models
`artifacts/{appId}/public/data/quizSubmissions` (the collection
`QuizResultsTable` subscribes to).  Timestamps (`completedAt`, `createdAt`) are
omitted: no claim depends on them.  JS numbers holding timer values are embedded
as `Int` so that the claim that the countdown never becomes negative is a real
statement.
-/

/-- A quiz question as stored in a quiz document: its text, the list of answer
options (the authoring form always creates exactly 4), and the correct answer
text. -/
structure Question where
  questionText : String
  options : List String
  correctAnswer : String
  deriving Repr, DecidableEq

/-- A quiz document from `artifacts/{appId}/public/data/quizzes`.  The `id` is
the Firestore document id; `createdAt` is omitted. -/
structure QuizDefinition where
  id : String
  title : String
  timerSeconds : Int
  questions : List Question
  creatorId : String
  deriving Repr, DecidableEq

/-- A quiz result document as written by `handleSubmitQuiz`; `completedAt` is
omitted. -/
structure QuizResult where
  quizId : String
  quizTitle : String
  studentId : String
  studentEmail : String
  score : Nat
  totalQuestions : Nat
  timeTaken : Int
  deriving Repr, DecidableEq

/-- The signed-in Firebase user as used by the quiz feature: its `uid` and an
optional `email` (anonymous users have none). -/
structure UserInfo where
  uid : String
  email : Option String
  deriving Repr, DecidableEq

/-- The JS expression `user.email || 'anonymous'`: an absent or empty (falsy)
email string is replaced by the literal `"anonymous"`. -/
def orAnonymous (e : Option String) : String :=
  match e with
  | none => "anonymous"
  | some s => if s = "" then "anonymous" else s

/-- The `useState` fields of the `Quizzes` component, plus the embedded view of
the two result collections and a flag recording whether the quiz-list snapshot
listener registered by the mount effect is still subscribed.  `timerInterval`
is `true` exactly when an interval handle is held (the JS state holds the
interval id or `null`). -/
structure QuizzesState where
  user : Option UserInfo
  quizzes : List QuizDefinition
  selectedQuiz : Option QuizDefinition
  currentQuestionIndex : Nat
  selectedAnswer : Option String
  score : Nat
  showResults : Bool
  quizTimer : Int
  timeRemaining : Int
  timerInterval : Bool
  showAuthModal : Bool
  showAdminPanel : Bool
  adminPassword : String
  adminPasswordError : String
  showQuizCreationModal : Bool
  quizzesSubscribed : Bool
  userQuizResults : List QuizResult
  publicQuizSubmissions : List QuizResult
  deriving Repr, DecidableEq

/-- Fresh mount of the `Quizzes` component for a given auth context: all
`useState` initial values, with the quiz-list snapshot subscription installed
by the mount effect.  Both embedded collections start as given (empty for a
fresh backend). -/
def quizzesMount (u : Option UserInfo) : QuizzesState :=
  { user := u
    quizzes := []
    selectedQuiz := none
    currentQuestionIndex := 0
    selectedAnswer := none
    score := 0
    showResults := false
    quizTimer := 0
    timeRemaining := 0
    timerInterval := false
    showAuthModal := false
    showAdminPanel := false
    adminPassword := ""
    adminPasswordError := ""
    showQuizCreationModal := false
    quizzesSubscribed := true
    userQuizResults := []
    publicQuizSubmissions := [] }

/-- Handler `startQuiz(quiz)`: unauthenticated users only get the auth modal; otherwise
the attempt state is initialised (index 0, no selection, score 0, timer fields
set to `quiz.timerSeconds`) and the 1-second interval is started. -/
def startQuiz (s : QuizzesState) (quiz : QuizDefinition) : QuizzesState :=
  match s.user with
  | none => { s with showAuthModal := true }
  | some _ =>
    { s with selectedQuiz := some quiz
             currentQuestionIndex := 0
             selectedAnswer := none
             score := 0
             showResults := false
             timeRemaining := quiz.timerSeconds
             quizTimer := quiz.timerSeconds
             timerInterval := true }

/-- Handler `handleAnswerSelect(option)`: records the chosen option. -/
def handleAnswerSelect (s : QuizzesState) (option : String) : QuizzesState :=
  { s with selectedAnswer := some option }

/-- Handler `handleSubmitQuiz()`: clears the interval, shows the results view, and, when
a user and a selected quiz are present, appends one result document with
`timeTaken = quizTimer - timeRemaining` to the per-user `quizResults`
collection.  (The `db` handle of the source is assumed present.) -/
def handleSubmitQuiz (s : QuizzesState) : QuizzesState :=
  let s1 := { s with timerInterval := false, showResults := true }
  match s.user, s.selectedQuiz with
  | some u, some quiz =>
    { s1 with userQuizResults := s.userQuizResults ++
        [ { quizId := quiz.id
            quizTitle := quiz.title
            studentId := u.uid
            studentEmail := orAnonymous u.email
            score := s.score
            totalQuestions := quiz.questions.length
            timeTaken := s.quizTimer - s.timeRemaining } ] }
  | _, _ => s1

/-- Placeholder question used only to totalise the list lookup
`selectedQuiz.questions[currentQuestionIndex]`; every claim about
`handleNextQuestion` carries the in-bounds hypothesis under which the
placeholder is never read. -/
def emptyQuestion : Question :=
  { questionText := "", options := [], correctAnswer := "" }

/-- Handler `handleNextQuestion()`: no-op when no answer is selected; otherwise the
score is incremented exactly when the selection equals the current question
correct answer (plain string equality), the selection is cleared, and either
the index advances or, on the last question, the quiz is submitted.  (The
handler is only rendered while a quiz is selected; the `none` quiz branch is
unreachable in the UI.) -/
def handleNextQuestion (s : QuizzesState) : QuizzesState :=
  match s.selectedAnswer with
  | none => s
  | some ans =>
    match s.selectedQuiz with
    | none => s
    | some quiz =>
      let s1 := if ans = (quiz.questions.getD s.currentQuestionIndex emptyQuestion).correctAnswer
        then { s with score := s.score + 1 } else s
      let s2 := { s1 with selectedAnswer := none }
      if s.currentQuestionIndex < quiz.questions.length - 1 then
        { s2 with currentQuestionIndex := s.currentQuestionIndex + 1 }
      else
        handleSubmitQuiz s2

/-- One firing of the interval callback installed by `startQuiz`: at `<= 1` the
interval clears itself, `handleSubmitQuiz` runs (while `timeRemaining` still
holds the pre-tick value, so `timeTaken` is computed against it), and the
remaining time becomes 0; otherwise the remaining time decrements. -/
def timerTick (s : QuizzesState) : QuizzesState :=
  if s.timeRemaining ≤ 1 then
    let s1 := { s with timerInterval := false }
    let s2 := handleSubmitQuiz s1
    { s2 with timeRemaining := 0 }
  else
    { s with timeRemaining := s.timeRemaining - 1 }

/-- Handler `closeQuiz()`: clears the interval and returns to the quiz list. -/
def closeQuiz (s : QuizzesState) : QuizzesState :=
  { s with timerInterval := false, selectedQuiz := none, showResults := false }

/-- Handler `openAdminPanel()`: prompts for login when signed out, else opens the admin
password modal. -/
def openAdminPanel (s : QuizzesState) : QuizzesState :=
  match s.user with
  | none => { s with showAuthModal := true }
  | some _ => { s with showAdminPanel := true }

/-- Handler `closeAdminPanel()`. -/
def closeAdminPanel (s : QuizzesState) : QuizzesState :=
  { s with showAdminPanel := false, adminPassword := "", adminPasswordError := "" }

/-- Handler `handleAdminLogin()`: exact string comparison of the typed password against
the static secret; on success the quiz creation modal opens, on failure only
the error message is set. -/
def handleAdminLogin (s : QuizzesState) : QuizzesState :=
  if s.adminPassword = "gesannexadmin" then
    { s with adminPasswordError := ""
             showAdminPanel := false
             showQuizCreationModal := true }
  else
    { s with adminPasswordError := "Incorrect admin password." }

/-- Handler `closeQuizCreationModal()`. -/
def closeQuizCreationModal (s : QuizzesState) : QuizzesState :=
  { s with showQuizCreationModal := false }

/-- Unmounting the `Quizzes` component runs the registered effect cleanups; the
only cleanup in the component unsubscribes the quiz-list snapshot listener.  No
effect cleanup touches `timerInterval`. -/
def unmountQuizzes (s : QuizzesState) : QuizzesState :=
  { s with quizzesSubscribed := false }

/-- The `QuizResultsTable` subtree is rendered unconditionally at the bottom of
the `Quizzes` section, outside every conditional of the JSX. -/
def resultsViewerRendered (_ : QuizzesState) : Bool :=
  true

/-- The `QuizCreationForm` subtree is rendered exactly when
`showQuizCreationModal` holds. -/
def quizCreationRendered (s : QuizzesState) : Bool :=
  s.showQuizCreationModal

/-- The UI events the `Quizzes` component can dispatch, plus the timer tick. -/
inductive QEvent where
  | start (quiz : QuizDefinition)
  | select (option : String)
  | next
  | tick
  | close
  | openAdmin
  | closeAdmin
  | setAdminPw (p : String)
  | adminLogin
  | closeCreation
  deriving Repr, DecidableEq

/-- One dispatch step.  Each handler is guarded by the render condition of the
element that raises it: the start buttons exist only in the list view, the
answer and next buttons only while a quiz is in progress, the back button only
on the results view, the admin controls only inside their modals, and a tick
only fires while an interval handle is live. -/
def step (s : QuizzesState) : QEvent → QuizzesState
  | QEvent.start quiz =>
    if s.selectedQuiz = none then startQuiz s quiz else s
  | QEvent.select option =>
    if s.selectedQuiz.isSome ∧ s.showResults = false then handleAnswerSelect s option else s
  | QEvent.next =>
    if s.selectedQuiz.isSome ∧ s.showResults = false then handleNextQuestion s else s
  | QEvent.tick =>
    if s.timerInterval = true then timerTick s else s
  | QEvent.close =>
    if s.selectedQuiz.isSome ∧ s.showResults = true then closeQuiz s else s
  | QEvent.openAdmin =>
    if s.selectedQuiz = none then openAdminPanel s else s
  | QEvent.closeAdmin =>
    if s.showAdminPanel = true then closeAdminPanel s else s
  | QEvent.setAdminPw p =>
    if s.showAdminPanel = true then { s with adminPassword := p } else s
  | QEvent.adminLogin =>
    if s.showAdminPanel = true then handleAdminLogin s else s
  | QEvent.closeCreation =>
    if s.showQuizCreationModal = true then closeQuizCreationModal s else s

/-- Running a list of events from a state. -/
def runEvents (s : QuizzesState) (evs : List QEvent) : QuizzesState :=
  evs.foldl step s

/-- The result document `handleSubmitQuiz` appends for user `u` and quiz
`quiz` when the local score is `sc` and the elapsed time is `tt`. -/
def submittedResult (quiz : QuizDefinition) (u : UserInfo) (sc : Nat) (tt : Int) : QuizResult :=
  { quizId := quiz.id
    quizTitle := quiz.title
    studentId := u.uid
    studentEmail := orAnonymous u.email
    score := sc
    totalQuestions := quiz.questions.length
    timeTaken := tt }

theorem handleSubmitQuiz_eq (s : QuizzesState) (u : UserInfo) (quiz : QuizDefinition)
    (hu : s.user = some u) (hq : s.selectedQuiz = some quiz) :
    handleSubmitQuiz s =
      { s with timerInterval := false
               showResults := true
               userQuizResults := s.userQuizResults ++
                 [submittedResult quiz u s.score (s.quizTimer - s.timeRemaining)] } := by
  simp [handleSubmitQuiz, submittedResult, hu, hq]

@[simp] theorem handleSubmitQuiz_timerInterval (s : QuizzesState) :
    (handleSubmitQuiz s).timerInterval = false := by
  unfold handleSubmitQuiz
  rcases s.user with _ | u <;> rcases s.selectedQuiz with _ | q <;> rfl

@[simp] theorem handleSubmitQuiz_showResults (s : QuizzesState) :
    (handleSubmitQuiz s).showResults = true := by
  unfold handleSubmitQuiz
  rcases s.user with _ | u <;> rcases s.selectedQuiz with _ | q <;> rfl

@[simp] theorem handleSubmitQuiz_selectedQuiz (s : QuizzesState) :
    (handleSubmitQuiz s).selectedQuiz = s.selectedQuiz := by
  unfold handleSubmitQuiz
  rcases s.user with _ | u <;> rcases s.selectedQuiz with _ | q <;> rfl

@[simp] theorem handleSubmitQuiz_timeRemaining (s : QuizzesState) :
    (handleSubmitQuiz s).timeRemaining = s.timeRemaining := by
  unfold handleSubmitQuiz
  rcases s.user with _ | u <;> rcases s.selectedQuiz with _ | q <;> rfl

@[simp] theorem handleSubmitQuiz_quizTimer (s : QuizzesState) :
    (handleSubmitQuiz s).quizTimer = s.quizTimer := by
  unfold handleSubmitQuiz
  rcases s.user with _ | u <;> rcases s.selectedQuiz with _ | q <;> rfl

@[simp] theorem handleSubmitQuiz_score (s : QuizzesState) :
    (handleSubmitQuiz s).score = s.score := by
  unfold handleSubmitQuiz
  rcases s.user with _ | u <;> rcases s.selectedQuiz with _ | q <;> rfl

@[simp] theorem handleSubmitQuiz_selectedAnswer (s : QuizzesState) :
    (handleSubmitQuiz s).selectedAnswer = s.selectedAnswer := by
  unfold handleSubmitQuiz
  rcases s.user with _ | u <;> rcases s.selectedQuiz with _ | q <;> rfl

@[simp] theorem handleSubmitQuiz_currentQuestionIndex (s : QuizzesState) :
    (handleSubmitQuiz s).currentQuestionIndex = s.currentQuestionIndex := by
  unfold handleSubmitQuiz
  rcases s.user with _ | u <;> rcases s.selectedQuiz with _ | q <;> rfl

@[simp] theorem handleSubmitQuiz_user (s : QuizzesState) :
    (handleSubmitQuiz s).user = s.user := by
  unfold handleSubmitQuiz
  rcases s.user with _ | u <;> rcases s.selectedQuiz with _ | q <;> rfl

theorem handleSubmitQuiz_resultsLength_le (s : QuizzesState) :
    (handleSubmitQuiz s).userQuizResults.length ≤ s.userQuizResults.length + 1 := by
  unfold handleSubmitQuiz
  rcases s.user with _ | u <;> rcases s.selectedQuiz with _ | q <;> simp

theorem handleSubmitQuiz_resultsLength_ge (s : QuizzesState) :
    s.userQuizResults.length ≤ (handleSubmitQuiz s).userQuizResults.length := by
  unfold handleSubmitQuiz
  rcases s.user with _ | u <;> rcases s.selectedQuiz with _ | q <;> simp

/-- Concrete subject used by the closed instances below. -/
def demoUser : UserInfo :=
  { uid := "u1", email := some "student1" }

/-- Concrete one-question quiz whose correct answer is the string literal
matching the worked example of the specification. -/
def demoQuestionB : Question :=
  { questionText := "Pick B", options := ["A", "B", "C", "D"], correctAnswer := "B" }

/-- Concrete quiz holding `demoQuestionB` with a 30 second budget. -/
def demoQuizB : QuizDefinition :=
  { id := "q1", title := "Demo quiz", timerSeconds := 30,
    questions := [demoQuestionB], creatorId := "t1" }

/-- A freshly started attempt on `demoQuizB` with the matching answer chosen. -/
def stateAnsweredB : QuizzesState :=
  handleAnswerSelect (startQuiz (quizzesMount (some demoUser)) demoQuizB) "B"

/-- The same attempt with the lowercase, non-matching answer chosen. -/
def stateAnsweredLower : QuizzesState :=
  handleAnswerSelect (startQuiz (quizzesMount (some demoUser)) demoQuizB) "b"

/-- C6: with an answer selected, `advance()` increments the score by exactly 1
when the selection equals the current question correct answer under plain
case-sensitive string equality, and leaves the score unchanged otherwise. -/
theorem C6_advance_scores_by_exact_match (s : QuizzesState) (quiz : QuizDefinition) (a : String)
    (hq : s.selectedQuiz = some quiz) (ha : s.selectedAnswer = some a) :
    (handleNextQuestion s).score =
      s.score +
        (if a = (quiz.questions.getD s.currentQuestionIndex emptyQuestion).correctAnswer
         then 1 else 0) := by
  unfold handleNextQuestion
  rw [ha, hq]
  by_cases hl : s.currentQuestionIndex < quiz.questions.length - 1 <;>
    simp only [hl, if_true, if_false] <;> split <;> simp_all

/-- Closed instance of `C6_advance_scores_by_exact_match`: answering `"B"`
against correct answer `"B"` scores 1; answering `"b"` scores 0. -/
theorem C6_witness :
    (handleNextQuestion stateAnsweredB).score = 1 ∧
    (handleNextQuestion stateAnsweredLower).score = 0 := by
  have h1 := C6_advance_scores_by_exact_match stateAnsweredB demoQuizB "B" rfl rfl
  have h2 := C6_advance_scores_by_exact_match stateAnsweredLower demoQuizB "b" rfl rfl
  rw [h1, h2]
  decide

/-- C9: with no answer selected, `advance()` returns the state unchanged in
every field. -/
theorem C9_advance_noop_without_selection (s : QuizzesState)
    (h : s.selectedAnswer = none) :
    handleNextQuestion s = s := by
  unfold handleNextQuestion
  rw [h]

/-- Closed instance of `C9_advance_noop_without_selection` on a freshly started
attempt. -/
theorem C9_witness :
    handleNextQuestion (startQuiz (quizzesMount (some demoUser)) demoQuizB) =
      startQuiz (quizzesMount (some demoUser)) demoQuizB :=
  C9_advance_noop_without_selection (startQuiz (quizzesMount (some demoUser)) demoQuizB) rfl

/-- C10: immediately after `advance()` returns, the selected answer is empty,
whether the call advanced the index, triggered submission, or was the
no-selection no-op. -/
theorem C10_selectedAnswer_cleared (s : QuizzesState) (quiz : QuizDefinition)
    (hq : s.selectedQuiz = some quiz) :
    (handleNextQuestion s).selectedAnswer = none := by
  unfold handleNextQuestion
  cases ha : s.selectedAnswer with
  | none => simpa using ha
  | some a =>
    rw [hq]
    by_cases hl : s.currentQuestionIndex < quiz.questions.length - 1 <;> simp [hl]

/-- Closed instance of `C10_selectedAnswer_cleared` at the answered demo
attempt. -/
theorem C10_witness :
    (handleNextQuestion stateAnsweredB).selectedAnswer = none :=
  C10_selectedAnswer_cleared stateAnsweredB demoQuizB rfl

theorem getD_append_cons {α : Type} (pre : List α) (q : α) (post : List α) (d : α) :
    (pre ++ q :: post).getD pre.length d = q := by
  induction pre with
  | nil => rfl
  | cons p ps ih => simpa using ih

@[simp] theorem runEvents_nil (s : QuizzesState) : runEvents s [] = s := rfl

@[simp] theorem runEvents_cons (s : QuizzesState) (e : QEvent) (evs : List QEvent) :
    runEvents s (e :: evs) = runEvents (step s e) evs := rfl

theorem runEvents_append (s : QuizzesState) (l1 l2 : List QEvent) :
    runEvents s (l1 ++ l2) = runEvents (runEvents s l1) l2 := by
  simp [runEvents, List.foldl_append]

theorem startQuiz_eq (s : QuizzesState) (u : UserInfo) (quiz : QuizDefinition)
    (hu : s.user = some u) :
    startQuiz s quiz =
      { s with selectedQuiz := some quiz
               currentQuestionIndex := 0
               selectedAnswer := none
               score := 0
               showResults := false
               timeRemaining := quiz.timerSeconds
               quizTimer := quiz.timerSeconds
               timerInterval := true } := by
  unfold startQuiz
  rw [hu]

theorem step_select_eq (s : QuizzesState) (o : String) (quiz : QuizDefinition)
    (hq : s.selectedQuiz = some quiz) (hr : s.showResults = false) :
    step s (QEvent.select o) = { s with selectedAnswer := some o } := by
  simp [step, hq, hr, handleAnswerSelect]

theorem step_next_eq (s : QuizzesState) (quiz : QuizDefinition)
    (hq : s.selectedQuiz = some quiz) (hr : s.showResults = false) :
    step s QEvent.next = handleNextQuestion s := by
  simp [step, hq, hr]

theorem handleNextQuestion_notLast (s : QuizzesState) (quiz : QuizDefinition)
    (pre post : List Question) (q : Question) (a : String)
    (hq : s.selectedQuiz = some quiz)
    (hqs : quiz.questions = pre ++ q :: post)
    (hidx : s.currentQuestionIndex = pre.length)
    (ha : s.selectedAnswer = some a)
    (hpost : post ≠ []) :
    handleNextQuestion s =
      { s with score := s.score + (if a = q.correctAnswer then 1 else 0)
               selectedAnswer := none
               currentQuestionIndex := s.currentQuestionIndex + 1 } := by
  have hget : quiz.questions.getD s.currentQuestionIndex emptyQuestion = q := by
    rw [hqs, hidx]
    exact getD_append_cons pre q post emptyQuestion
  have hlt : s.currentQuestionIndex < quiz.questions.length - 1 := by
    rw [hqs, hidx]
    rcases post with _ | ⟨p, ps⟩
    · exact absurd rfl hpost
    · simp
  unfold handleNextQuestion
  rw [ha, hq]
  dsimp only
  rw [hget]
  by_cases hc : a = q.correctAnswer <;> simp [hlt, hc, hq]

theorem handleNextQuestion_correct_last (s : QuizzesState) (quiz : QuizDefinition)
    (pre : List Question) (q : Question)
    (hq : s.selectedQuiz = some quiz)
    (hqs : quiz.questions = pre ++ [q])
    (hidx : s.currentQuestionIndex = pre.length)
    (ha : s.selectedAnswer = some q.correctAnswer) :
    handleNextQuestion s =
      handleSubmitQuiz { s with score := s.score + 1, selectedAnswer := none } := by
  have hget : quiz.questions.getD s.currentQuestionIndex emptyQuestion = q := by
    rw [hqs, hidx]
    exact getD_append_cons pre q [] emptyQuestion
  have hlt : ¬ s.currentQuestionIndex < quiz.questions.length - 1 := by
    rw [hqs, hidx]
    simp
  unfold handleNextQuestion
  rw [ha, hq]
  dsimp only
  rw [hget]
  simp [hlt]

/-- The event trace that selects the correct answer of each listed question and
advances, in order. -/
def answerEvents : List Question → List QEvent
  | [] => []
  | q :: qs => QEvent.select q.correctAnswer :: QEvent.next :: answerEvents qs

theorem runEvents_allCorrect (quiz : QuizDefinition) (u : UserInfo) :
    ∀ (rest pre : List Question) (s : QuizzesState),
      rest ≠ [] →
      s.user = some u →
      s.selectedQuiz = some quiz →
      quiz.questions = pre ++ rest →
      s.currentQuestionIndex = pre.length →
      s.showResults = false →
      runEvents s (answerEvents rest) =
        { s with currentQuestionIndex := quiz.questions.length - 1
                 selectedAnswer := none
                 score := s.score + rest.length
                 showResults := true
                 timerInterval := false
                 userQuizResults := s.userQuizResults ++
                   [submittedResult quiz u (s.score + rest.length)
                     (s.quizTimer - s.timeRemaining)] } := by
  intro rest
  induction rest with
  | nil =>
    intro pre s hne
    exact absurd rfl hne
  | cons q rest' ih =>
    intro pre s _ hu hq hqs hidx hsr
    simp only [answerEvents, runEvents_cons]
    rw [step_select_eq s q.correctAnswer quiz hq hsr]
    rw [step_next_eq _ quiz (by simp [hq]) (by simp [hsr])]
    rcases rest' with _ | ⟨q2, rest2⟩
    · rw [handleNextQuestion_correct_last _ quiz pre q (by simp [hq]) hqs (by simp [hidx])
        (by simp)]
      rw [handleSubmitQuiz_eq _ u quiz (by simp [hu]) (by simp [hq])]
      simp [answerEvents, hqs, hidx]
    · rw [handleNextQuestion_notLast _ quiz pre (q2 :: rest2) q q.correctAnswer (by simp [hq])
        hqs (by simp [hidx]) (by simp) (by simp)]
      simp only [if_pos rfl]
      rw [ih (pre ++ [q]) _ (by simp) (by simp [hu]) (by simp [hq])
        (by rw [hqs]; simp) (by simp [hidx]) (by simp [hsr])]
      have hA : s.score + 1 + (q2 :: rest2).length = s.score + (q :: q2 :: rest2).length := by
        simp
        omega
      simp only [if_true, List.length_cons] at hA ⊢
      rw [hA]

/-- Second concrete question for multi-question runs. -/
def demoQuestionR : Question :=
  { questionText := "Pick R", options := ["P", "Q", "R", "S"], correctAnswer := "R" }

/-- Concrete two-question quiz. -/
def demoQuiz2 : QuizDefinition :=
  { id := "q2", title := "Demo quiz 2", timerSeconds := 40,
    questions := [demoQuestionB, demoQuestionR], creatorId := "t1" }

/-- C1: starting a quiz as an authenticated subject and, for each of its N
questions in order, selecting the correct answer and advancing, ends with
score N, the results view shown, and exactly one result appended whose score
and totalQuestions are N and whose timeTaken is the timer budget minus the
remaining seconds at submission. -/
theorem C1_complete_correct_run (s0 : QuizzesState) (u : UserInfo) (quiz : QuizDefinition)
    (hu : s0.user = some u) (hne : quiz.questions ≠ []) :
    (runEvents (startQuiz s0 quiz) (answerEvents quiz.questions)).score =
      quiz.questions.length ∧
    (runEvents (startQuiz s0 quiz) (answerEvents quiz.questions)).showResults = true ∧
    (runEvents (startQuiz s0 quiz) (answerEvents quiz.questions)).userQuizResults =
      s0.userQuizResults ++
        [submittedResult quiz u quiz.questions.length
          (quiz.timerSeconds -
            (runEvents (startQuiz s0 quiz) (answerEvents quiz.questions)).timeRemaining)] := by
  rw [startQuiz_eq s0 u quiz hu]
  rw [runEvents_allCorrect quiz u quiz.questions [] _ hne (by simp [hu]) (by simp) (by simp)
    (by simp) (by simp)]
  simp

/-- Closed instance of `C1_complete_correct_run` on the two-question demo
quiz. -/
theorem C1_witness :
    (runEvents (startQuiz (quizzesMount (some demoUser)) demoQuiz2)
        (answerEvents demoQuiz2.questions)).score = demoQuiz2.questions.length ∧
    (runEvents (startQuiz (quizzesMount (some demoUser)) demoQuiz2)
        (answerEvents demoQuiz2.questions)).showResults = true ∧
    (runEvents (startQuiz (quizzesMount (some demoUser)) demoQuiz2)
        (answerEvents demoQuiz2.questions)).userQuizResults =
      (quizzesMount (some demoUser)).userQuizResults ++
        [submittedResult demoQuiz2 demoUser demoQuiz2.questions.length
          (demoQuiz2.timerSeconds -
            (runEvents (startQuiz (quizzesMount (some demoUser)) demoQuiz2)
              (answerEvents demoQuiz2.questions)).timeRemaining)] :=
  C1_complete_correct_run (quizzesMount (some demoUser)) demoUser demoQuiz2 rfl (by decide)


/-- The event trace that, for each listed pair, selects the given answer for
the given question and advances. -/
def attemptEvents : List (Question × String) → List QEvent
  | [] => []
  | p :: ps => QEvent.select p.2 :: QEvent.next :: attemptEvents ps

/-- How many of the given question-answer pairs carry the correct answer of
their question. -/
def countCorrect : List (Question × String) → Nat
  | [] => 0
  | p :: ps => (if p.2 = p.1.correctAnswer then 1 else 0) + countCorrect ps

theorem runEvents_partialAnswers (quiz : QuizDefinition) :
    ∀ (qas : List (Question × String)) (pre leftover : List Question) (s : QuizzesState),
      leftover ≠ [] →
      s.selectedQuiz = some quiz →
      quiz.questions = pre ++ qas.map Prod.fst ++ leftover →
      s.currentQuestionIndex = pre.length →
      s.selectedAnswer = none →
      s.showResults = false →
      runEvents s (attemptEvents qas) =
        { s with currentQuestionIndex := pre.length + qas.length
                 selectedAnswer := none
                 score := s.score + countCorrect qas } := by
  intro qas
  induction qas with
  | nil =>
    intro pre leftover s hne hq hqs hidx hsa hsr
    simp only [attemptEvents, runEvents_nil, List.length_nil, Nat.add_zero, countCorrect]
    rw [← hidx, ← hsa]
  | cons p ps ih =>
    intro pre leftover s hne hq hqs hidx hsa hsr
    obtain ⟨q, a⟩ := p
    simp only [attemptEvents, runEvents_cons]
    rw [step_select_eq s a quiz hq hsr]
    rw [step_next_eq _ quiz (by simp [hq]) (by simp [hsr])]
    rw [handleNextQuestion_notLast _ quiz pre (ps.map Prod.fst ++ leftover) q a (by simp [hq])
      (by rw [hqs]; simp) (by simp [hidx]) (by simp)
      (by intro h; exact hne (List.append_eq_nil.mp h).2)]
    rw [ih (pre ++ [q]) leftover _ hne (by simp [hq]) (by rw [hqs]; simp) (by simp [hidx])
      (by simp) (by simp [hsr])]
    simp [QuizzesState.mk.injEq, countCorrect]
    omega

theorem step_tick_dec (s : QuizzesState) (hti : s.timerInterval = true)
    (h : ¬ s.timeRemaining ≤ 1) :
    step s QEvent.tick = { s with timeRemaining := s.timeRemaining - 1 } := by
  simp [step, hti, timerTick, h]

theorem step_tick_expiry (s : QuizzesState) (u : UserInfo) (quiz : QuizDefinition)
    (hu : s.user = some u) (hq : s.selectedQuiz = some quiz)
    (hti : s.timerInterval = true) (hle : s.timeRemaining ≤ 1) :
    step s QEvent.tick =
      { s with timerInterval := false
               showResults := true
               timeRemaining := 0
               userQuizResults := s.userQuizResults ++
                 [submittedResult quiz u s.score (s.quizTimer - s.timeRemaining)] } := by
  have hstep : step s QEvent.tick = timerTick s := by simp [step, hti]
  rw [hstep]
  unfold timerTick
  rw [if_pos hle]
  dsimp only
  rw [handleSubmitQuiz_eq _ u quiz (by simp [hu]) (by simp [hq])]

theorem runEvents_ticks (m : Nat) :
    ∀ s : QuizzesState, s.timerInterval = true → s.timeRemaining = (m : Int) + 1 →
      runEvents s (List.replicate m QEvent.tick) = { s with timeRemaining := 1 } := by
  induction m with
  | zero =>
    intro s hti htr
    have h1 : s.timeRemaining = 1 := by simpa using htr
    simp only [List.replicate, runEvents_nil]
    rw [← h1]
  | succ k ih =>
    intro s hti htr
    have hgt : ¬ s.timeRemaining ≤ 1 := by
      rw [htr]
      push_cast
      omega
    simp only [List.replicate, runEvents_cons]
    rw [step_tick_dec s hti hgt]
    rw [ih _ (by simp [hti]) (by dsimp only; rw [htr]; push_cast; ring)]

/-- Third concrete question. -/
def demoQuestionT : Question :=
  { questionText := "Pick T", options := ["T", "U", "V", "W"], correctAnswer := "T" }

/-- Concrete three-question quiz with a 5 second budget, used for the timer
expiry scenario. -/
def demoQuiz3 : QuizDefinition :=
  { id := "q3", title := "Demo quiz 3", timerSeconds := 5,
    questions := [demoQuestionB, demoQuestionR, demoQuestionT], creatorId := "t1" }

/-- C2: when the countdown expires before the last question has been answered
(the answered prefix leaves a non-empty remainder), the expiry tick forces
submission: the attempt ends with the results view shown, the interval
cleared, zero time remaining, and exactly one result appended whose score is
exactly the number of correctly answered questions of the prefix. -/
theorem C2_expiry_scores_partial_run (s0 : QuizzesState) (u : UserInfo)
    (quiz : QuizDefinition) (qas : List (Question × String)) (leftover : List Question)
    (m : Nat)
    (hu : s0.user = some u)
    (hqs : quiz.questions = qas.map Prod.fst ++ leftover)
    (hleft : leftover ≠ [])
    (hT : quiz.timerSeconds = (m : Int) + 1) :
    (runEvents (startQuiz s0 quiz)
        (attemptEvents qas ++ (List.replicate m QEvent.tick ++ [QEvent.tick]))).showResults
      = true ∧
    (runEvents (startQuiz s0 quiz)
        (attemptEvents qas ++ (List.replicate m QEvent.tick ++ [QEvent.tick]))).timerInterval
      = false ∧
    (runEvents (startQuiz s0 quiz)
        (attemptEvents qas ++ (List.replicate m QEvent.tick ++ [QEvent.tick]))).timeRemaining
      = 0 ∧
    (runEvents (startQuiz s0 quiz)
        (attemptEvents qas ++ (List.replicate m QEvent.tick ++ [QEvent.tick]))).userQuizResults
      = s0.userQuizResults ++
          [submittedResult quiz u (countCorrect qas) (quiz.timerSeconds - 1)] := by
  rw [startQuiz_eq s0 u quiz hu]
  rw [runEvents_append, runEvents_append]
  rw [runEvents_partialAnswers quiz qas [] leftover _ hleft (by simp) (by simpa using hqs)
    (by simp) (by simp) (by simp)]
  rw [runEvents_ticks m _ (by simp) (by dsimp only; rw [hT])]
  simp only [runEvents_cons, runEvents_nil]
  rw [step_tick_expiry _ u quiz (by simp [hu]) (by simp) (by simp) (by simp)]
  simp [hT]

/-- Closed instance of `C2_expiry_scores_partial_run`: on the three-question
demo quiz, question 1 answered correctly, the timer then expiring on question 2
submits a result with score 1. -/
theorem C2_witness :
    (runEvents (startQuiz (quizzesMount (some demoUser)) demoQuiz3)
        (attemptEvents [(demoQuestionB, "B")] ++
          (List.replicate 4 QEvent.tick ++ [QEvent.tick]))).showResults = true ∧
    (runEvents (startQuiz (quizzesMount (some demoUser)) demoQuiz3)
        (attemptEvents [(demoQuestionB, "B")] ++
          (List.replicate 4 QEvent.tick ++ [QEvent.tick]))).timerInterval = false ∧
    (runEvents (startQuiz (quizzesMount (some demoUser)) demoQuiz3)
        (attemptEvents [(demoQuestionB, "B")] ++
          (List.replicate 4 QEvent.tick ++ [QEvent.tick]))).timeRemaining = 0 ∧
    (runEvents (startQuiz (quizzesMount (some demoUser)) demoQuiz3)
        (attemptEvents [(demoQuestionB, "B")] ++
          (List.replicate 4 QEvent.tick ++ [QEvent.tick]))).userQuizResults =
      (quizzesMount (some demoUser)).userQuizResults ++
        [submittedResult demoQuiz3 demoUser (countCorrect [(demoQuestionB, "B")])
          (demoQuiz3.timerSeconds - 1)] :=
  C2_expiry_scores_partial_run (quizzesMount (some demoUser)) demoUser demoQuiz3
    [(demoQuestionB, "B")] [demoQuestionR, demoQuestionT] 4 rfl (by decide) (by decide)
    (by decide)

theorem handleNextQuestion_shape (s : QuizzesState) :
    handleNextQuestion s = s ∨
    (∃ sc : Nat, handleNextQuestion s =
        { s with score := sc
                 selectedAnswer := none
                 currentQuestionIndex := s.currentQuestionIndex + 1 }) ∨
    (∃ sc : Nat, handleNextQuestion s =
        handleSubmitQuiz { s with score := sc, selectedAnswer := none }) := by
  unfold handleNextQuestion
  cases ha : s.selectedAnswer with
  | none => exact Or.inl rfl
  | some a =>
    cases hq : s.selectedQuiz with
    | none => exact Or.inl rfl
    | some quiz =>
      dsimp only
      by_cases hc : a = (quiz.questions.getD s.currentQuestionIndex emptyQuestion).correctAnswer <;>
        by_cases hl : s.currentQuestionIndex < quiz.questions.length - 1
      · rw [if_pos hc, if_pos hl]
        exact Or.inr (Or.inl ⟨s.score + 1, by simp [hq]⟩)
      · rw [if_pos hc, if_neg hl]
        exact Or.inr (Or.inr ⟨s.score + 1, by simp [hq]⟩)
      · rw [if_neg hc, if_pos hl]
        exact Or.inr (Or.inl ⟨s.score, by simp [hq]⟩)
      · rw [if_neg hc, if_neg hl]
        exact Or.inr (Or.inr ⟨s.score, by simp [hq]⟩)

@[simp] theorem startQuiz_modal (s : QuizzesState) (quiz : QuizDefinition) :
    (startQuiz s quiz).showQuizCreationModal = s.showQuizCreationModal := by
  unfold startQuiz
  rcases s.user with _ | u <;> rfl

@[simp] theorem handleSubmitQuiz_modal (s : QuizzesState) :
    (handleSubmitQuiz s).showQuizCreationModal = s.showQuizCreationModal := by
  unfold handleSubmitQuiz
  rcases s.user with _ | u <;> rcases s.selectedQuiz with _ | q <;> rfl

@[simp] theorem handleNextQuestion_modal (s : QuizzesState) :
    (handleNextQuestion s).showQuizCreationModal = s.showQuizCreationModal := by
  rcases handleNextQuestion_shape s with h | ⟨sc, h⟩ | ⟨sc, h⟩ <;> simp [h]

@[simp] theorem timerTick_modal (s : QuizzesState) :
    (timerTick s).showQuizCreationModal = s.showQuizCreationModal := by
  unfold timerTick
  split <;> simp

@[simp] theorem openAdminPanel_modal (s : QuizzesState) :
    (openAdminPanel s).showQuizCreationModal = s.showQuizCreationModal := by
  unfold openAdminPanel
  rcases s.user with _ | u <;> rfl

theorem stepModal (s : QuizzesState) (e : QEvent)
    (h : s.showQuizCreationModal = false)
    (hok : e = QEvent.adminLogin → s.adminPassword ≠ "gesannexadmin") :
    (step s e).showQuizCreationModal = false := by
  cases e <;> simp only [step] <;> split <;>
    simp_all [handleAdminLogin, handleAnswerSelect, closeQuiz, closeAdminPanel,
      closeQuizCreationModal]

/-- Invariant of one attempt, relative to the number `n0` of results already
stored when the attempt began: the countdown is never negative, a quiz stays
selected, a zero countdown means the interval is gone, a shown results view
means the interval is gone and at most one result was appended, and before the
results view is shown nothing has been appended. -/
def attemptInv (n0 : Nat) (s : QuizzesState) : Prop :=
  0 ≤ s.timeRemaining ∧
  s.selectedQuiz.isSome = true ∧
  (s.timeRemaining = 0 → s.timerInterval = false) ∧
  (s.showResults = true → s.timerInterval = false ∧ s.userQuizResults.length ≤ n0 + 1) ∧
  (s.showResults = false → s.userQuizResults.length = n0)

theorem attemptInv_step (n0 : Nat) (s : QuizzesState) (e : QEvent)
    (hinv : attemptInv n0 s) (hne : e ≠ QEvent.close) :
    attemptInv n0 (step s e) := by
  obtain ⟨htr, hsel, hzero, hshown, hnot⟩ := hinv
  obtain ⟨quiz, hq⟩ := Option.isSome_iff_exists.mp hsel
  cases e with
  | start q =>
    simp only [step, hq]
    exact ⟨htr, hsel, hzero, hshown, hnot⟩
  | select o =>
    by_cases hg : s.selectedQuiz.isSome = true ∧ s.showResults = false <;>
      simp only [step, hg, if_pos, if_neg, not_false_eq_true, if_true, if_false] <;>
      exact ⟨htr, hsel, hzero, hshown, hnot⟩
  | next =>
    by_cases hg : s.selectedQuiz.isSome = true ∧ s.showResults = false
    · simp only [step, hg, if_true]
      rcases handleNextQuestion_shape s with h | ⟨sc, h⟩ | ⟨sc, h⟩ <;> rw [h]
      · exact ⟨htr, hsel, hzero, hshown, hnot⟩
      · exact ⟨htr, hsel, hzero, by simp [hg.2], by intro _; exact hnot hg.2⟩
      · refine ⟨by simpa using htr, by simpa using hsel, by simp, ?_, by simp⟩
        intro _
        refine ⟨by simp, ?_⟩
        have hle := handleSubmitQuiz_resultsLength_le { s with score := sc, selectedAnswer := none }
        have hlen : s.userQuizResults.length = n0 := hnot hg.2
        simpa [hlen] using hle
    · simp only [step, hg, if_false]
      exact ⟨htr, hsel, hzero, hshown, hnot⟩
  | tick =>
    by_cases hg : s.timerInterval = true
    · simp only [step, hg, if_true]
      unfold timerTick
      by_cases hle : s.timeRemaining ≤ 1
      · rw [if_pos hle]
        dsimp only
        have hsr : s.showResults = false := by
          by_contra hcon
          simp only [Bool.not_eq_false] at hcon
          have := (hshown hcon).1
          rw [this] at hg
          exact Bool.false_ne_true hg
        have hlen : s.userQuizResults.length = n0 := hnot hsr
        refine ⟨by simp, by simpa using hsel, by simp, ?_, by simp⟩
        intro _
        refine ⟨by simp, ?_⟩
        have hle2 := handleSubmitQuiz_resultsLength_le { s with timerInterval := false }
        simpa [hlen] using hle2
      · rw [if_neg hle]
        refine ⟨by dsimp only; omega, by simpa using hsel, by dsimp only; intro h0; omega,
          by simpa using hshown, by simpa using hnot⟩
    · simp only [step, hg, if_false]
      exact ⟨htr, hsel, hzero, hshown, hnot⟩
  | close => exact absurd rfl hne
  | openAdmin =>
    simp only [step, hq]
    exact ⟨htr, hsel, hzero, hshown, hnot⟩
  | closeAdmin =>
    by_cases hg : s.showAdminPanel = true <;>
      simp only [step, hg, if_true, if_false] <;>
      exact ⟨htr, hsel, hzero, hshown, hnot⟩
  | setAdminPw p =>
    by_cases hg : s.showAdminPanel = true <;>
      simp only [step, hg, if_true, if_false] <;>
      exact ⟨htr, hsel, hzero, hshown, hnot⟩
  | adminLogin =>
    by_cases hg : s.showAdminPanel = true <;>
      simp only [step, hg, if_true, if_false]
    · unfold handleAdminLogin
      split <;> exact ⟨htr, hsel, hzero, hshown, hnot⟩
    · exact ⟨htr, hsel, hzero, hshown, hnot⟩
  | closeCreation =>
    by_cases hg : s.showQuizCreationModal = true <;>
      simp only [step, hg, if_true, if_false] <;>
      exact ⟨htr, hsel, hzero, hshown, hnot⟩

theorem attemptInv_run (n0 : Nat) :
    ∀ (evs : List QEvent) (s : QuizzesState), attemptInv n0 s → QEvent.close ∉ evs →
      attemptInv n0 (runEvents s evs) := by
  intro evs
  induction evs with
  | nil =>
    intro s h _
    exact h
  | cons e rest ih =>
    intro s h hmem
    simp only [runEvents_cons]
    have hne : e ≠ QEvent.close := by
      intro he
      exact hmem (by simp [he])
    exact ih _ (attemptInv_step n0 s e h hne) (fun hm => hmem (List.mem_cons_of_mem e hm))

/-- C3: along every event trace of an attempt started by an authenticated
subject on a quiz with a positive timer (up to, but not including, closing the
attempt), the countdown never goes below 0; whenever it has reached 0 the
interval is stopped, whenever the results view is shown the interval is
stopped, and at most one result document has been appended relative to the
state before the attempt. -/
theorem C3_timer_floor_and_single_write (s0 : QuizzesState) (u : UserInfo)
    (quiz : QuizDefinition) (evs : List QEvent)
    (hu : s0.user = some u) (hT : 1 ≤ quiz.timerSeconds)
    (hclose : QEvent.close ∉ evs) :
    0 ≤ (runEvents (startQuiz s0 quiz) evs).timeRemaining ∧
    ((runEvents (startQuiz s0 quiz) evs).timeRemaining = 0 →
      (runEvents (startQuiz s0 quiz) evs).timerInterval = false) ∧
    ((runEvents (startQuiz s0 quiz) evs).showResults = true →
      (runEvents (startQuiz s0 quiz) evs).timerInterval = false) ∧
    (runEvents (startQuiz s0 quiz) evs).userQuizResults.length ≤
      s0.userQuizResults.length + 1 := by
  have hstart : attemptInv s0.userQuizResults.length (startQuiz s0 quiz) := by
    rw [startQuiz_eq s0 u quiz hu]
    refine ⟨by dsimp only; omega, by simp, by dsimp only; intro h0; omega, by simp, by simp⟩
  have hrun := attemptInv_run s0.userQuizResults.length evs _ hstart hclose
  obtain ⟨h1, _, h3, h4, h5⟩ := hrun
  refine ⟨h1, h3, fun hs => (h4 hs).1, ?_⟩
  by_cases hs : (runEvents (startQuiz s0 quiz) evs).showResults = true
  · exact (h4 hs).2
  · rw [h5 (by simpa using hs)]
    omega

/-- Closed instance of `C3_timer_floor_and_single_write`: a trace that answers
question 1 of the two-question demo quiz and then lets the timer tick twice. -/
theorem C3_witness :
    0 ≤ (runEvents (startQuiz (quizzesMount (some demoUser)) demoQuiz2)
          [QEvent.select "B", QEvent.next, QEvent.tick, QEvent.tick]).timeRemaining ∧
    ((runEvents (startQuiz (quizzesMount (some demoUser)) demoQuiz2)
          [QEvent.select "B", QEvent.next, QEvent.tick, QEvent.tick]).timeRemaining = 0 →
      (runEvents (startQuiz (quizzesMount (some demoUser)) demoQuiz2)
          [QEvent.select "B", QEvent.next, QEvent.tick, QEvent.tick]).timerInterval = false) ∧
    ((runEvents (startQuiz (quizzesMount (some demoUser)) demoQuiz2)
          [QEvent.select "B", QEvent.next, QEvent.tick, QEvent.tick]).showResults = true →
      (runEvents (startQuiz (quizzesMount (some demoUser)) demoQuiz2)
          [QEvent.select "B", QEvent.next, QEvent.tick, QEvent.tick]).timerInterval = false) ∧
    (runEvents (startQuiz (quizzesMount (some demoUser)) demoQuiz2)
          [QEvent.select "B", QEvent.next, QEvent.tick, QEvent.tick]).userQuizResults.length ≤
      (quizzesMount (some demoUser)).userQuizResults.length + 1 :=
  C3_timer_floor_and_single_write (quizzesMount (some demoUser)) demoUser demoQuiz2
    [QEvent.select "B", QEvent.next, QEvent.tick, QEvent.tick] rfl (by decide) (by decide)

/-- C5 exhibit: the timer handle survives component teardown.  Submission and
closing do clear the interval, but unmounting while an attempt is in progress
leaves `timerInterval` live — the component registers no effect cleanup for it
— and a later tick still mutates the disposed state. -/
theorem C5_unmount_leaves_timer_running :
    (unmountQuizzes (startQuiz (quizzesMount (some demoUser)) demoQuizB)).timerInterval
      = true ∧
    (handleSubmitQuiz (startQuiz (quizzesMount (some demoUser)) demoQuizB)).timerInterval
      = false ∧
    (closeQuiz (startQuiz (quizzesMount (some demoUser)) demoQuizB)).timerInterval
      = false ∧
    step (unmountQuizzes (startQuiz (quizzesMount (some demoUser)) demoQuizB)) QEvent.tick ≠
      unmountQuizzes (startQuiz (quizzesMount (some demoUser)) demoQuizB) := by
  refine ⟨rfl, rfl, rfl, ?_⟩
  decide

/-- Stable insertion keeping descending score order: a row is placed before the
first strictly smaller score, hence after every earlier row of greater or equal
score, which models the stability of the JS sort with comparator
`(a, b) => b.score - a.score`. -/
def insertByScoreDesc (x : QuizResult) : List QuizResult → List QuizResult
  | [] => [x]
  | y :: ys => if y.score < x.score then x :: y :: ys else y :: insertByScoreDesc x ys

/-- Stable sort of result rows by score descending. -/
def sortByScoreDesc (l : List QuizResult) : List QuizResult :=
  l.foldl (fun acc x => insertByScoreDesc x acc) []

/-- The rows `QuizResultsTable` displays for a selected quiz id: the documents
of the subscribed `quizSubmissions` collection filtered by `quizId` equality and
sorted by score descending. -/
def viewerRows (subs : List QuizResult) (qid : String) : List QuizResult :=
  sortByScoreDesc (subs.filter (fun r => r.quizId == qid))

/-- C4 exhibit: a completed attempt appends its result to the per-user
`quizResults` collection, while the results viewer reads the
`public/data/quizSubmissions` collection, which no code path ever writes; it
therefore stays empty and the viewer shows no rows for the quiz just
completed. -/
theorem C4_viewer_reads_unwritten_collection :
    (runEvents (startQuiz (quizzesMount (some demoUser)) demoQuizB)
        (answerEvents demoQuizB.questions)).userQuizResults =
      [submittedResult demoQuizB demoUser 1 0] ∧
    (runEvents (startQuiz (quizzesMount (some demoUser)) demoQuizB)
        (answerEvents demoQuizB.questions)).publicQuizSubmissions = [] ∧
    viewerRows
      ((runEvents (startQuiz (quizzesMount (some demoUser)) demoQuizB)
        (answerEvents demoQuizB.questions)).publicQuizSubmissions) "q1" = [] := by
  refine ⟨?_, ?_, ?_⟩ <;> decide

/-- C8 refutation exhibit: in the freshly mounted state, before any admin
password has been typed or checked (the password field is empty, the admin
modal closed, the creation modal closed), the results viewer subtree is
already rendered, so results-viewing is reachable without the shared secret. -/
theorem C8_results_viewer_ungated :
    resultsViewerRendered (quizzesMount (some demoUser)) = true ∧
    (quizzesMount (some demoUser)).adminPassword = "" ∧
    (quizzesMount (some demoUser)).showAdminPanel = false ∧
    (quizzesMount (some demoUser)).showQuizCreationModal = false :=
  ⟨rfl, rfl, rfl, rfl⟩

/-- C8 amended: only quiz authoring is gated by the static admin password.
From any state with the creation modal closed, the only dispatch that opens it
is an admin login whose typed password equals the secret by exact string
equality; a mismatching login keeps it closed and sets the error message; the
results table is rendered in every state, gated by nothing. -/
theorem C8_authoring_gate (s : QuizzesState) (e : QEvent)
    (hclosed : s.showQuizCreationModal = false) :
    ((step s e).showQuizCreationModal = true →
      e = QEvent.adminLogin ∧ s.adminPassword = "gesannexadmin") ∧
    (s.adminPassword ≠ "gesannexadmin" →
      (step s QEvent.adminLogin).showQuizCreationModal = false ∧
      (s.showAdminPanel = true →
        (step s QEvent.adminLogin).adminPasswordError = "Incorrect admin password.")) ∧
    resultsViewerRendered s = true := by
  refine ⟨?_, ?_, rfl⟩
  · intro hopen
    by_contra hcon
    rw [not_and_or] at hcon
    have hok : e = QEvent.adminLogin → s.adminPassword ≠ "gesannexadmin" := by
      rcases hcon with h | h
      · intro he
        exact absurd he h
      · intro _
        exact h
    rw [stepModal s e hclosed hok] at hopen
    exact Bool.false_ne_true hopen
  · intro hpw
    refine ⟨stepModal s QEvent.adminLogin hclosed (fun _ => hpw), ?_⟩
    intro hpanel
    simp [step, hpanel, handleAdminLogin, hpw]

/-- The admin password modal opened with a wrong password typed. -/
def adminPromptState : QuizzesState :=
  { quizzesMount (some demoUser) with showAdminPanel := true, adminPassword := "wrong" }

/-- Closed instance of `C8_authoring_gate` at the wrong-password prompt
state. -/
theorem C8_amended_witness :
    ((step adminPromptState QEvent.adminLogin).showQuizCreationModal = true →
      QEvent.adminLogin = QEvent.adminLogin ∧
        adminPromptState.adminPassword = "gesannexadmin") ∧
    (adminPromptState.adminPassword ≠ "gesannexadmin" →
      (step adminPromptState QEvent.adminLogin).showQuizCreationModal = false ∧
      (adminPromptState.showAdminPanel = true →
        (step adminPromptState QEvent.adminLogin).adminPasswordError =
          "Incorrect admin password.")) ∧
    resultsViewerRendered adminPromptState = true :=
  C8_authoring_gate adminPromptState QEvent.adminLogin rfl

/-- The `useState` fields of the `QuizCreationForm` component plus the embedded
view of the public quizzes collection it appends to and a flag for whether the
form modal is open (`closeForm`). -/
structure QuizCreationState where
  user : Option UserInfo
  quizTitle : String
  quizTimerSeconds : Int
  quizQuestions : List Question
  loading : Bool
  message : String
  formOpen : Bool
  publicQuizzes : List QuizDefinition
  deriving Repr, DecidableEq

/-- The draft question shape the form starts with and resets to: empty text,
exactly 4 empty options, empty correct answer. -/
def emptyDraftQuestion : Question :=
  { questionText := "", options := ["", "", "", ""], correctAnswer := "" }

/-- Document id the Content Store assigns to the next created quiz; the store
is embedded as a list, so a fresh id is derived from its size. -/
def newQuizId (store : List QuizDefinition) : String :=
  toString store.length

/-- The JS `String.prototype.trim()`: leading and trailing whitespace
characters removed, modelled structurally over the character list (Lean
`String.trim` is an equivalent but non-reducing implementation). -/
def jsTrim (s : String) : String :=
  String.mk
    (((s.data.dropWhile Char.isWhitespace).reverse.dropWhile Char.isWhitespace).reverse)

/-- Handler `saveQuiz(e)`: refuses without a signed-in user; rejects with the inline
validation message when the trimmed title is empty, the timer is non-positive,
or some question has blank text, some blank option, or a blank correct answer
(all checked through `.trim()`); otherwise appends one quiz document attributed
to the current subject, resets the draft, and closes the form. -/
def saveQuiz (s : QuizCreationState) : QuizCreationState :=
  let s0 := { s with message := "", loading := true }
  match s.user with
  | none => { s0 with message := "You must be logged in to create quizzes.", loading := false }
  | some u =>
    if (jsTrim s.quizTitle) == "" || decide (s.quizTimerSeconds ≤ 0) ||
        s.quizQuestions.any (fun q =>
          (jsTrim q.questionText) == "" || q.options.any (fun opt => (jsTrim opt) == "") ||
            (jsTrim q.correctAnswer) == "") then
      { s0 with message := "Please fill in all quiz fields and ensure timer is positive."
                loading := false }
    else
      { s0 with
          publicQuizzes := s.publicQuizzes ++
            [ { id := newQuizId s.publicQuizzes
                title := s.quizTitle
                timerSeconds := s.quizTimerSeconds
                questions := s.quizQuestions
                creatorId := u.uid } ]
          message := "Quiz saved successfully!"
          quizTitle := ""
          quizTimerSeconds := 60
          quizQuestions := [emptyDraftQuestion]
          formOpen := false
          loading := false }

/-- Draft validity exactly as claim C7 words it: non-empty title, positive
timer, and every question with non-empty text, 4 non-empty options, and a
non-empty correct answer. -/
def claimDraftValid (s : QuizCreationState) : Prop :=
  s.quizTitle ≠ "" ∧ 0 < s.quizTimerSeconds ∧
    ∀ q ∈ s.quizQuestions, q.questionText ≠ "" ∧ q.options.length = 4 ∧
      (∀ o ∈ q.options, o ≠ "") ∧ q.correctAnswer ≠ ""

instance (s : QuizCreationState) : Decidable (claimDraftValid s) := by
  unfold claimDraftValid
  infer_instance

/-- Draft validity as the code checks it: the same fields non-blank, meaning
non-empty after `String.trim`, and the timer positive. -/
def draftNonBlankValid (s : QuizCreationState) : Prop :=
  jsTrim s.quizTitle ≠ "" ∧ 0 < s.quizTimerSeconds ∧
    ∀ q ∈ s.quizQuestions, jsTrim q.questionText ≠ "" ∧
      (∀ o ∈ q.options, jsTrim o ≠ "") ∧ jsTrim q.correctAnswer ≠ ""

theorem saveCond_false_iff (s : QuizCreationState) :
    ((jsTrim s.quizTitle) == "" || decide (s.quizTimerSeconds ≤ 0) ||
      s.quizQuestions.any (fun q =>
        (jsTrim q.questionText) == "" || q.options.any (fun opt => (jsTrim opt) == "") ||
          (jsTrim q.correctAnswer) == "")) = false ↔ draftNonBlankValid s := by
  unfold draftNonBlankValid
  simp [List.any_eq_true, not_or, Int.not_le]
  constructor
  · rintro ⟨⟨h1, h2⟩, h3⟩
    exact ⟨h1, h2, fun q hq => ⟨(h3 q hq).1.1, (h3 q hq).1.2, (h3 q hq).2⟩⟩
  · rintro ⟨h1, h2, h3⟩
    exact ⟨⟨h1, h2⟩, fun q hq => ⟨⟨(h3 q hq).1, (h3 q hq).2.1⟩, (h3 q hq).2.2⟩⟩

/-- A draft that the claim wording counts as valid — the title " " is a
non-empty string, the single question is fully filled — but whose title trims
to empty. -/
def blankTitleDraft : QuizCreationState :=
  { user := some demoUser
    quizTitle := " "
    quizTimerSeconds := 60
    quizQuestions := [demoQuestionB]
    loading := false
    message := ""
    formOpen := true
    publicQuizzes := [] }

/-- C7 refutation exhibit: `blankTitleDraft` satisfies the claim validity
condition verbatim, yet `saveQuiz` signals the validation message and writes
nothing, because the code validates the trimmed title. -/
theorem C7_counterexample :
    claimDraftValid blankTitleDraft ∧
    (saveQuiz blankTitleDraft).publicQuizzes = blankTitleDraft.publicQuizzes ∧
    (saveQuiz blankTitleDraft).message =
      "Please fill in all quiz fields and ensure timer is positive." := by
  refine ⟨by decide, by decide, by decide⟩

/-- C7 amended: with a signed-in subject, `saveQuiz` appends exactly one quiz
attributed to that subject, resets the draft, and closes the form when title,
question texts, options, and correct answers are all non-blank — non-empty
after trimming whitespace — and the timer is positive; otherwise it signals
the validation message and leaves the store untouched. -/
theorem C7_save_validation (s : QuizCreationState) (u : UserInfo)
    (hu : s.user = some u) :
    (draftNonBlankValid s →
      (saveQuiz s).publicQuizzes = s.publicQuizzes ++
        [ { id := newQuizId s.publicQuizzes
            title := s.quizTitle
            timerSeconds := s.quizTimerSeconds
            questions := s.quizQuestions
            creatorId := u.uid } ] ∧
      (saveQuiz s).quizTitle = "" ∧
      (saveQuiz s).quizTimerSeconds = 60 ∧
      (saveQuiz s).quizQuestions = [emptyDraftQuestion] ∧
      (saveQuiz s).formOpen = false ∧
      (saveQuiz s).message = "Quiz saved successfully!") ∧
    (¬ draftNonBlankValid s →
      (saveQuiz s).publicQuizzes = s.publicQuizzes ∧
      (saveQuiz s).message =
        "Please fill in all quiz fields and ensure timer is positive.") := by
  unfold saveQuiz
  rw [hu]
  dsimp only
  constructor
  · intro hv
    have hc := (saveCond_false_iff s).mpr hv
    rw [if_neg (by rw [hc]; exact Bool.false_ne_true)]
    exact ⟨rfl, rfl, rfl, rfl, rfl, rfl⟩
  · intro hv
    have hc : ((jsTrim s.quizTitle) == "" || decide (s.quizTimerSeconds ≤ 0) ||
        s.quizQuestions.any (fun q =>
          (jsTrim q.questionText) == "" || q.options.any (fun opt => (jsTrim opt) == "") ||
            (jsTrim q.correctAnswer) == "")) = true := by
      by_contra hfalse
      exact hv ((saveCond_false_iff s).mp (Bool.eq_false_iff.mpr hfalse))
    rw [if_pos hc]
    exact ⟨rfl, rfl⟩

/-- A fully non-blank draft used to instantiate the save path. -/
def validDraft : QuizCreationState :=
  { user := some demoUser
    quizTitle := "Quiz A"
    quizTimerSeconds := 60
    quizQuestions := [demoQuestionB]
    loading := false
    message := ""
    formOpen := true
    publicQuizzes := [] }

/-- Closed instance of `C7_save_validation` at `validDraft`. -/
theorem C7_witness :
    (draftNonBlankValid validDraft →
      (saveQuiz validDraft).publicQuizzes = validDraft.publicQuizzes ++
        [ { id := newQuizId validDraft.publicQuizzes
            title := validDraft.quizTitle
            timerSeconds := validDraft.quizTimerSeconds
            questions := validDraft.quizQuestions
            creatorId := demoUser.uid } ] ∧
      (saveQuiz validDraft).quizTitle = "" ∧
      (saveQuiz validDraft).quizTimerSeconds = 60 ∧
      (saveQuiz validDraft).quizQuestions = [emptyDraftQuestion] ∧
      (saveQuiz validDraft).formOpen = false ∧
      (saveQuiz validDraft).message = "Quiz saved successfully!") ∧
    (¬ draftNonBlankValid validDraft →
      (saveQuiz validDraft).publicQuizzes = validDraft.publicQuizzes ∧
      (saveQuiz validDraft).message =
        "Please fill in all quiz fields and ensure timer is positive.") :=
  C7_save_validation validDraft demoUser rfl
